import Mathlib

/-!
Shallow embedding of `src/priority_scorer.py` (class `TaskPriorityScorer`).

Modelling conventions:
* Python floats are modelled as exact rationals (`ℚ`); every quantity the
  program manipulates is a small decimal, and Python's `round(x, 2)` is
  modelled by round-half-to-even on rationals (`round2`).
* Calendar datetimes are modelled as rational day numbers: a `datetime`
  is a point on the time axis measured in days.  `datetime.strptime(s,
  "%Y-%m-%d")` yields midnight of a calendar day, i.e. an integer day
  number; `datetime.now()` is an arbitrary rational instant.  A task's
  `deadline` string field is represented by its parse result
  `Option ℤ`: `some d` when `strptime` succeeds with midnight of day
  `d`, `none` when it raises `ValueError` (unparseable string).
  Python's `(deadline - today).days` floors the exact day difference,
  which `Int.floor` reproduces.
* Functions that print a warning are modelled by returning the value
  paired with a `Bool` that records whether the warning was printed.
-/

namespace PriorityScorer

/-- Task data model (the `@dataclass Task`): `deadline` holds the
`strptime` parse result of the ISO date string (see module docstring),
the other fields are verbatim; defaults as in the dataclass. -/
structure Task where
  name : String
  urgency : ℤ
  importance : ℤ
  effort : ℤ
  deadline : Option ℤ
  status : String := "todo"
  priority : String := "medium"
  score : ℚ := 0
deriving DecidableEq, Repr

/-- Python `round` to an integer: round half to even (banker's rounding). -/
def pyRound (q : ℚ) : ℤ :=
  let f : ℤ := ⌊q⌋
  let r : ℚ := q - f
  if r < 1/2 then f
  else if 1/2 < r then f + 1
  else if f % 2 = 0 then f else f + 1

/-- Python `round(q, 2)`: round to two decimal places, half to even. -/
def round2 (q : ℚ) : ℚ := (pyRound (q * 100) : ℚ) / 100

/-- Scoring weight `URGENCY_WEIGHT = 0.4`. -/
def URGENCY_WEIGHT : ℚ := 0.4

/-- Scoring weight `IMPORTANCE_WEIGHT = 0.3`. -/
def IMPORTANCE_WEIGHT : ℚ := 0.3

/-- Scoring weight `DEADLINE_WEIGHT = 0.2`. -/
def DEADLINE_WEIGHT : ℚ := 0.2

/-- Scoring weight `EFFORT_WEIGHT = 0.1`. -/
def EFFORT_WEIGHT : ℚ := 0.1

/-- The `if`/`elif` ladder of `calculate_deadline_factor` applied to an
already-computed `days_until` value. -/
def deadlineLadder (days_until : ℤ) : ℚ :=
  if days_until < 0 then 10.0
  else if days_until = 0 then 10.0
  else if days_until = 1 then 9.0
  else if days_until ≤ 3 then 8.0
  else if days_until ≤ 7 then 6.0
  else if days_until ≤ 14 then 4.0
  else if days_until ≤ 30 then 2.0
  else 1.0

/-- `calculate_deadline_factor(deadline_str)`.  `now` is the value of
`datetime.now()` (a rational day number); `deadline` is the parse result
of `deadline_str`.  Returns the factor paired with whether the
invalid-format warning was printed.  `days_until = (deadline - today).days`
floors the exact difference between midnight of the deadline day and
`now`. -/
def calculate_deadline_factor (now : ℚ) (deadline : Option ℤ) : ℚ × Bool :=
  match deadline with
  | none => (5.0, true)
  | some d =>
    let days_until : ℤ := ⌊(d : ℚ) - now⌋
    (deadlineLadder days_until, false)

/-- `calculate_effort_efficiency(effort) = 10 - effort` (no clamping). -/
def calculate_effort_efficiency (effort : ℤ) : ℚ := 10 - effort

/-- `calculate_task_score(task)`: the weighted sum, rounded to two
decimal places.  `now` is the `datetime.now()` instant consulted by
`calculate_deadline_factor`. -/
def calculate_task_score (now : ℚ) (task : Task) : ℚ :=
  let deadline_factor : ℚ := (calculate_deadline_factor now task.deadline).1
  let effort_efficiency : ℚ := calculate_effort_efficiency task.effort
  round2 (task.urgency * URGENCY_WEIGHT + task.importance * IMPORTANCE_WEIGHT +
    deadline_factor * DEADLINE_WEIGHT + effort_efficiency * EFFORT_WEIGHT)

/-- `score_all_tasks()`: sets every stored task's `score` field to its
computed score. -/
def score_all_tasks (now : ℚ) (tasks : List Task) : List Task :=
  tasks.map fun t => { t with score := calculate_task_score now t }

/-- `get_sorted_tasks(reverse=True)`: Python's `sorted` is a stable
sort; with `reverse=True` the order among distinct keys is descending
while ties keep their input order.  `List.mergeSort` with the matching
comparator is extensionally the same stable sort. -/
def get_sorted_tasks (tasks : List Task) (reverse : Bool := true) : List Task :=
  if reverse then tasks.mergeSort fun a b => decide (b.score ≤ a.score)
  else tasks.mergeSort fun a b => decide (a.score ≤ b.score)

/-- Python slice `l[:n]` for an integer `n` (negative `n` counts from
the end). -/
def pySliceTo (l : List α) (n : ℤ) : List α :=
  if 0 ≤ n then l.take n.toNat else l.take ((l.length : ℤ) + n).toNat

/-- The sequence of task rows printed by `display_results(top_n)`:
the sorted tasks, sliced to `top_n` when `top_n` is truthy (Python's
`if top_n:` is false both for `None` and for `0`). -/
def display_results (tasks : List Task) (top_n : Option ℤ) : List Task :=
  let sorted_tasks := get_sorted_tasks tasks
  match top_n with
  | some n => if n = 0 then sorted_tasks else pySliceTo sorted_tasks n
  | none => sorted_tasks

/-- Strip the computed `score` field of a task (restore the dataclass
default), used to state which fields `score_all_tasks` leaves intact. -/
def stripScore (t : Task) : Task := { t with score := 0 }

/-- One entry of the input file's `tasks` array, as decoded JSON: each
dataclass field is `some`/`none` for present/absent, `extraKeys` lists
keys that are not fields of `Task`.  The `deadline` value, when present,
is again represented by its `strptime` parse result. -/
structure TaskRecord where
  name : Option String := none
  urgency : Option ℤ := none
  importance : Option ℤ := none
  effort : Option ℤ := none
  deadline : Option (Option ℤ) := none
  status : Option String := none
  priority : Option String := none
  score : Option ℚ := none
  extraKeys : List String := []

/-- `Task(**task)` for one decoded record: succeeds iff every field
without a dataclass default is present and there is no unexpected
keyword; otherwise Python raises `TypeError` (modelled as `none`). -/
def taskFromRecord (r : TaskRecord) : Option Task :=
  match r.name, r.urgency, r.importance, r.effort, r.deadline with
  | some n, some u, some i, some e, some d =>
    if r.extraKeys = [] then
      some { name := n, urgency := u, importance := i, effort := e, deadline := d,
             status := r.status.getD "todo", priority := r.priority.getD "medium",
             score := r.score.getD 0 }
    else none
  | _, _, _, _, _ => none

/-- Outcome of `load_tasks_from_json` as observable by the operator. -/
inductive LoadOutcome where
  /-- The success message was printed. -/
  | loaded : LoadOutcome
  /-- A caught error was printed; the method returned normally. -/
  | reportedError : LoadOutcome
  /-- An uncaught exception propagated out of the method. -/
  | crash : LoadOutcome
deriving DecidableEq, Repr

/-- Input to `load_tasks_from_json`, after the `open`/`json.load` steps:
either one of the two caught exceptions, or decoded JSON, in which case
`tasksKey` is the value of `data.get('tasks', [])` (`none` when the
`tasks` key is absent, so `get` yields `[]`). -/
inductive LoadInput where
  | fileNotFound : LoadInput
  | jsonDecodeError : LoadInput
  | parsed (tasksKey : Option (List TaskRecord)) : LoadInput

/-- `load_tasks_from_json(filepath)`: `prior` is `self.tasks` before the
call; returns the new `self.tasks` and the observable outcome.  Only
`FileNotFoundError` and `json.JSONDecodeError` are caught; a record on
which `Task(**task)` raises `TypeError` crashes the call (the assignment
to `self.tasks` never happens, so the stored list is still `prior`). -/
def load_tasks_from_json (prior : List Task) (input : LoadInput) :
    List Task × LoadOutcome :=
  match input with
  | .fileNotFound => (prior, .reportedError)
  | .jsonDecodeError => (prior, .reportedError)
  | .parsed tasksKey =>
    match (tasksKey.getD []).mapM taskFromRecord with
    | some ts => (ts, .loaded)
    | none => (prior, .crash)

/-- The statistics dictionary returned by `get_statistics` on a
non-empty task list. -/
structure Stats where
  total_tasks : ℕ
  average_score : ℚ
  highest_score : ℚ
  lowest_score : ℚ
  average_urgency : ℚ
  high_priority_tasks : ℕ
  medium_priority_tasks : ℕ
  low_priority_tasks : ℕ
deriving DecidableEq, Repr

/-- Result of `get_statistics`: either the `{"error": ...}` dictionary
or the statistics dictionary. -/
inductive StatsResult where
  | error (msg : String) : StatsResult
  | ok (s : Stats) : StatsResult
deriving DecidableEq, Repr

/-- `get_statistics()`: the empty list yields the error dictionary;
otherwise sums, `max`/`min` and the three bucket counts are computed
over the stored list. -/
def get_statistics (tasks : List Task) : StatsResult :=
  match tasks with
  | [] => .error "No tasks to analyze"
  | t :: ts =>
    let scores := (t :: ts).map (·.score)
    let urgencies := (t :: ts).map (·.urgency)
    .ok {
      total_tasks := (t :: ts).length
      average_score := round2 (scores.foldl (· + ·) 0 / (scores.length : ℚ))
      highest_score := (ts.map (·.score)).foldl max t.score
      lowest_score := (ts.map (·.score)).foldl min t.score
      average_urgency :=
        round2 (((urgencies.foldl (· + ·) 0 : ℤ) : ℚ) / (urgencies.length : ℚ))
      high_priority_tasks := (t :: ts).countP fun x => decide (7 ≤ x.score)
      medium_priority_tasks :=
        (t :: ts).countP fun x => decide (4 ≤ x.score ∧ x.score < 7)
      low_priority_tasks := (t :: ts).countP fun x => decide (x.score < 4) }

/-- Deadline factor as the specification's claim words it: the ladder
applied to the calendar-day difference `deadline − now` with now's
time-of-day ignored (truncated to a date comparison).  This definition
follows the spec's words and exists only to be compared against
`calculate_deadline_factor`, which is translated from the source. -/
def specTruncatedDeadlineFactor (nowDay deadlineDay : ℤ) : ℚ :=
  deadlineLadder (deadlineDay - nowDay)

/-- Scenario A task: urgency 10, importance 10, effort 1, due today
(day 0, with the reference instant `now = 0`). -/
def taskA : Task :=
  { name := "A", urgency := 10, importance := 10, effort := 1, deadline := some 0 }

/-- Scenario C task: unparseable deadline string. -/
def taskC : Task :=
  { name := "C", urgency := 2, importance := 3, effort := 4, deadline := none }

/-- Fixture with a pre-set low score. -/
def taskLow : Task :=
  { name := "low", urgency := 4, importance := 4, effort := 4, deadline := some 0,
    score := 2 }

/-- Fixture with a pre-set high score. -/
def taskHigh : Task :=
  { name := "high", urgency := 6, importance := 6, effort := 6, deadline := some 0,
    score := 8 }

/-- Statistics of `[taskHigh, taskLow]`. -/
def statsPair : Stats :=
  { total_tasks := 2, average_score := 5, highest_score := 8, lowest_score := 2,
    average_urgency := 5, high_priority_tasks := 1, medium_priority_tasks := 0,
    low_priority_tasks := 1 }

end PriorityScorer

namespace PriorityScorer

/-- Sorting does not change the length of the task list. -/
lemma length_get_sorted_tasks (tasks : List Task) (reverse : Bool) :
    (get_sorted_tasks tasks reverse).length = tasks.length := by
  cases reverse <;> simp [get_sorted_tasks]

/-- Floor of a day difference against a fractional instant: midnight of
day `deadlineDay` minus the instant `nowDay + t` floors to the calendar
difference exactly at midnight and to one less otherwise. -/
lemma floor_day_difference (nowDay deadlineDay : ℤ) (t : ℚ) (h0 : 0 ≤ t) (h1 : t < 1) :
    ⌊(deadlineDay : ℚ) - ((nowDay : ℚ) + t)⌋
      = if t = 0 then deadlineDay - nowDay else deadlineDay - nowDay - 1 := by
  have hrw : (deadlineDay : ℚ) - ((nowDay : ℚ) + t) = ((deadlineDay - nowDay : ℤ) : ℚ) + -t := by
    push_cast; ring
  rw [hrw, Int.floor_int_add]
  by_cases ht : t = 0
  · simp [ht]
  · have hpos : (0 : ℚ) < t := lt_of_le_of_ne h0 (Ne.symm ht)
    have hfl : ⌊-t⌋ = -1 := by
      rw [Int.floor_eq_iff]
      constructor <;> push_cast <;> linarith
    rw [if_neg ht, hfl]
    omega

/-- The three score buckets count every task exactly once. -/
lemma countP_score_buckets (l : List Task) :
    (l.countP fun x => decide (7 ≤ x.score)) +
      (l.countP fun x => decide (4 ≤ x.score ∧ x.score < 7)) +
      (l.countP fun x => decide (x.score < 4)) = l.length := by
  induction l with
  | nil => rfl
  | cons t ts ih =>
    rw [List.countP_cons, List.countP_cons, List.countP_cons, List.length_cons]
    simp only [decide_eq_true_eq]
    by_cases h7 : (7 : ℚ) ≤ t.score
    · rw [if_pos h7, if_neg (fun hc => absurd h7 (not_le.mpr hc.2)),
        if_neg (not_lt.mpr (le_trans (by norm_num) h7))]
      omega
    · by_cases h4 : (4 : ℚ) ≤ t.score
      · rw [if_neg h7, if_pos ⟨h4, not_le.mp h7⟩, if_neg (not_lt.mpr h4)]
        omega
      · rw [if_neg h7, if_neg (fun hc => absurd hc.1 h4), if_pos (not_le.mp h4)]
        omega

/-- A stable sort leaves any run of mutually tied elements in input
order: filtering by a predicate forcing ties commutes with
`mergeSort`. -/
lemma mergeSort_filter_fixed {α : Type} {le : α → α → Bool}
    (htrans : ∀ a b c, le a b = true → le b c = true → le a c = true)
    (htotal : ∀ a b, (le a b || le b a) = true)
    (p : α → Bool) (hp : ∀ a b, p a = true → p b = true → le a b = true)
    (l : List α) : (l.mergeSort le).filter p = l.filter p := by
  have hpw : (l.filter p).Pairwise fun a b => le a b = true :=
    List.pairwise_of_forall_mem_list fun a ha b hb =>
      hp a b (List.mem_filter.mp ha).2 (List.mem_filter.mp hb).2
  have hsub : List.Sublist (l.filter p) (l.mergeSort le) :=
    List.sublist_mergeSort htrans htotal hpw (List.filter_sublist l)
  have hsub2 : List.Sublist (l.filter p) ((l.mergeSort le).filter p) := by
    have h2 := hsub.filter p
    have hq : (fun a => p a && p a) = p := by funext a; rw [Bool.and_self]
    rwa [List.filter_filter, hq] at h2
  have hlen : ((l.mergeSort le).filter p).length = (l.filter p).length :=
    ((List.mergeSort_perm l le).filter p).length_eq
  exact (hsub2.eq_of_length hlen.symm).symm

end PriorityScorer

namespace PriorityScorer

/-- C1: for every task, `calculate_task_score` returns
`urgency*0.4 + importance*0.3 + deadline_factor*0.2 + effort_efficiency*0.1`
rounded to two decimal places, with the two factors computed by
`calculate_deadline_factor` and `calculate_effort_efficiency`; in
particular the Scenario A task (urgency 10, importance 10, effort 1,
due today) has deadline factor 10.0, effort efficiency 9.0 and scores
exactly 9.90. -/
theorem calculate_task_score_weighted_formula :
    (∀ (now : ℚ) (task : Task),
      calculate_task_score now task
        = round2 (task.urgency * 0.4 + task.importance * 0.3 +
            (calculate_deadline_factor now task.deadline).1 * 0.2 +
            calculate_effort_efficiency task.effort * 0.1))
    ∧ (calculate_deadline_factor 0 taskA.deadline).1 = 10
    ∧ calculate_effort_efficiency taskA.effort = 9
    ∧ calculate_task_score 0 taskA = 9.9 := by
  refine ⟨fun now task => rfl, ?_, ?_, ?_⟩
  · norm_num [taskA, calculate_deadline_factor, deadlineLadder]
  · norm_num [taskA, calculate_effort_efficiency]
  · norm_num [taskA, calculate_task_score, calculate_deadline_factor, deadlineLadder,
      calculate_effort_efficiency, URGENCY_WEIGHT, IMPORTANCE_WEIGHT, DEADLINE_WEIGHT,
      EFFORT_WEIGHT, round2, pyRound]

/-- C2 counterexample: it is false that `calculate_deadline_factor`
applies the ladder to the integer day difference with now's time-of-day
ignored (truncated to a date comparison): evaluated at noon of day 0
with deadline day 1 (due tomorrow), the code yields 10.0 while the
date-truncated table yields 9.0. -/
theorem deadline_factor_not_date_truncated :
    ¬ ∀ (nowDay deadlineDay : ℤ) (t : ℚ), 0 ≤ t → t < 1 →
        (calculate_deadline_factor ((nowDay : ℚ) + t) (some deadlineDay)).1
          = specTruncatedDeadlineFactor nowDay deadlineDay := by
  intro h
  have h2 := h 0 1 (1/2) (by norm_num) (by norm_num)
  norm_num [calculate_deadline_factor, deadlineLadder, specTruncatedDeadlineFactor] at h2

/-- C2 (amended): `calculate_deadline_factor` applies the fixed ladder
to `days_until = (deadline - now).days`, the floor of the exact day
difference between midnight of the deadline day and the evaluation
instant; this equals the calendar-day difference when `now` is exactly
midnight, and the calendar-day difference minus one otherwise.  The
ladder itself maps `≤ 0 ↦ 10.0, 1 ↦ 9.0, 2–3 ↦ 8.0, 4–7 ↦ 6.0,
8–14 ↦ 4.0, 15–30 ↦ 2.0, > 30 ↦ 1.0`. -/
theorem deadline_factor_floor_semantics :
    (∀ (nowDay deadlineDay : ℤ) (t : ℚ), 0 ≤ t → t < 1 →
      calculate_deadline_factor ((nowDay : ℚ) + t) (some deadlineDay)
        = (deadlineLadder (if t = 0 then deadlineDay - nowDay
            else deadlineDay - nowDay - 1), false))
    ∧ (∀ du : ℤ, deadlineLadder du =
        if du ≤ 0 then 10.0 else if du = 1 then 9.0 else if du ≤ 3 then 8.0
        else if du ≤ 7 then 6.0 else if du ≤ 14 then 4.0 else if du ≤ 30 then 2.0
        else 1.0) := by
  constructor
  · intro nowDay deadlineDay t h0 h1
    rw [calculate_deadline_factor, floor_day_difference nowDay deadlineDay t h0 h1]
  · intro du
    rw [deadlineLadder]
    split_ifs <;> first | rfl | omega

/-- Witness for the amended C2: at noon of day 0 with deadline day 1. -/
theorem deadline_factor_floor_semantics_witness :
    calculate_deadline_factor (((0 : ℤ) : ℚ) + 1/2) (some 1)
      = (deadlineLadder (if (1/2 : ℚ) = 0 then 1 - 0 else 1 - 0 - 1), false) :=
  deadline_factor_floor_semantics.1 0 1 (1/2) (by norm_num) (by norm_num)

/-- C3 counterexample: requesting top-0 from a 2-task collection is
falsy in Python (`if top_n:`), so the full sorted collection is
displayed rather than the empty sequence the claim demands for
`N ≤ 0`. -/
theorem display_results_topn_zero_not_empty :
    display_results [taskLow, taskHigh] (some 0) = get_sorted_tasks [taskLow, taskHigh]
    ∧ display_results [taskLow, taskHigh] (some 0) ≠ [] := by
  refine ⟨rfl, fun h => ?_⟩
  simpa [display_results, get_sorted_tasks] using congrArg List.length h

/-- C3 (amended): `display_results(top_n)` shows the first `top_n`
tasks of the descending sort for `top_n > 0` (hence the full sorted
collection whenever `top_n` is at least the collection size, e.g.
top-3 of 2 tasks, with no error); but `top_n = 0` is falsy and shows
the full sorted collection, and a negative `top_n` slices off the last
`|top_n|` tasks instead of showing none. -/
theorem display_results_top_n_semantics :
    ∀ (tasks : List Task) (n : ℤ),
      (0 < n → display_results tasks (some n) = (get_sorted_tasks tasks).take n.toNat)
      ∧ ((tasks.length : ℤ) ≤ n → display_results tasks (some n) = get_sorted_tasks tasks)
      ∧ display_results tasks (some 0) = get_sorted_tasks tasks
      ∧ (n < 0 → display_results tasks (some n)
          = (get_sorted_tasks tasks).take ((tasks.length : ℤ) + n).toNat)
      ∧ display_results tasks none = get_sorted_tasks tasks := by
  intro tasks n
  refine ⟨fun hn => ?_, fun hn => ?_, rfl, fun hn => ?_, rfl⟩
  · rw [display_results, if_neg (by omega : ¬n = 0), pySliceTo,
      if_pos (by omega : (0:ℤ) ≤ n)]
  · by_cases h0 : n = 0
    · subst h0; rfl
    · rw [display_results, if_neg h0, pySliceTo, if_pos (by omega : (0:ℤ) ≤ n)]
      exact List.take_of_length_le (by rw [length_get_sorted_tasks]; omega)
  · rw [display_results, if_neg (by omega : ¬n = 0), pySliceTo,
      if_neg (by omega : ¬(0:ℤ) ≤ n), length_get_sorted_tasks]

/-- Witness for the amended C3: top-3 of the 2-task collection returns
the full sorted collection. -/
theorem display_results_top_n_semantics_witness :
    display_results [taskLow, taskHigh] (some 3) = get_sorted_tasks [taskLow, taskHigh] :=
  (display_results_top_n_semantics [taskLow, taskHigh] 3).2.1 (by decide)

end PriorityScorer

namespace PriorityScorer

/-- C4 counterexample: a structurally invalid input that is valid JSON
(a task record with no fields) makes `Task(**task)` raise an uncaught
`TypeError`: the load crashes the process instead of being reported. -/
theorem load_tasks_structurally_invalid_crashes :
    load_tasks_from_json [taskA] (.parsed (some [{}])) = ([taskA], .crash)
    ∧ LoadOutcome.crash ≠ LoadOutcome.reportedError :=
  ⟨rfl, by decide⟩

/-- C4 (amended): an absent file or invalid JSON text is reported
without crashing and leaves the stored task collection exactly as it
was; but structurally invalid input that parses as JSON (a record on
which `Task(**task)` raises) escapes the `except` clauses and crashes
the process — the stored collection is still unchanged, yet the failure
is an uncaught exception rather than a report. -/
theorem load_tasks_error_handling :
    (∀ prior : List Task,
      load_tasks_from_json prior .fileNotFound = (prior, .reportedError))
    ∧ (∀ prior : List Task,
      load_tasks_from_json prior .jsonDecodeError = (prior, .reportedError))
    ∧ (∀ (prior : List Task) (tasksKey : Option (List TaskRecord)),
      (tasksKey.getD []).mapM taskFromRecord = none →
      load_tasks_from_json prior (.parsed tasksKey) = (prior, .crash)) :=
  ⟨fun _ => rfl, fun _ => rfl, fun prior tasksKey h => by
    simp only [load_tasks_from_json]
    rw [h]⟩

/-- Witness for the amended C4: the record with no fields fails
`Task(**task)`, so a parsed-but-invalid load crashes with the prior
collection intact. -/
theorem load_tasks_error_handling_witness :
    load_tasks_from_json [taskC] (.parsed (some [{}])) = ([taskC], .crash) :=
  load_tasks_error_handling.2.2 [taskC] (some [{}]) rfl

/-- C5: an unparseable deadline string yields the default factor 5.0
together with the printed warning, and `calculate_task_score` still
computes the score from that default with no error reaching it. -/
theorem unparseable_deadline_defaults_to_five :
    ∀ (now : ℚ) (task : Task), task.deadline = none →
      calculate_deadline_factor now task.deadline = (5.0, true)
      ∧ calculate_task_score now task
          = round2 (task.urgency * 0.4 + task.importance * 0.3 + 5.0 * 0.2 +
              calculate_effort_efficiency task.effort * 0.1) := by
  intro now task h
  rw [h]
  refine ⟨rfl, ?_⟩
  rw [calculate_task_score, h]
  rfl

/-- Witness for C5: the Scenario C task with an unparseable deadline. -/
theorem unparseable_deadline_defaults_to_five_witness :
    calculate_deadline_factor 0 taskC.deadline = (5.0, true)
    ∧ calculate_task_score 0 taskC
        = round2 (taskC.urgency * 0.4 + taskC.importance * 0.3 + 5.0 * 0.2 +
            calculate_effort_efficiency taskC.effort * 0.1) :=
  unparseable_deadline_defaults_to_five 0 taskC rfl

/-- C6: `get_statistics` on the empty collection returns the distinct
error dictionary, and on any non-empty collection returns a statistics
record whose divisor `total_tasks` is positive (so no degenerate
statistics are ever computed). -/
theorem get_statistics_empty_no_data :
    get_statistics [] = .error "No tasks to analyze"
    ∧ ∀ (t : Task) (ts : List Task),
        ∃ s, get_statistics (t :: ts) = .ok s ∧ 0 < s.total_tasks :=
  ⟨rfl, fun t ts => ⟨_, rfl, Nat.succ_pos ts.length⟩⟩

/-- C7: on every non-empty scored collection the three statistics
buckets (high `score ≥ 7.0`, medium `4.0 ≤ score < 7.0`, low
`score < 4.0`) are mutually exclusive and exhaustive:
`high + medium + low = total`. -/
theorem statistics_buckets_partition :
    ∀ (t : Task) (ts : List Task) (s : Stats), get_statistics (t :: ts) = .ok s →
      s.high_priority_tasks + s.medium_priority_tasks + s.low_priority_tasks
        = s.total_tasks := by
  intro t ts s h
  simp only [get_statistics, StatsResult.ok.injEq] at h
  rw [← h]
  exact countP_score_buckets (t :: ts)

/-- Witness for C7: the two-task fixture with scores 8 and 2. -/
theorem statistics_buckets_partition_witness :
    statsPair.high_priority_tasks + statsPair.medium_priority_tasks +
      statsPair.low_priority_tasks = statsPair.total_tasks :=
  statistics_buckets_partition taskHigh [taskLow] statsPair (by
    norm_num [get_statistics, taskHigh, taskLow, statsPair, round2, pyRound])

/-- C8: `get_sorted_tasks` orders by score, descending by default and
ascending when requested, returns a permutation of the stored
collection, and is stable: tasks with any common score appear in the
output in exactly their input order. -/
theorem get_sorted_tasks_ordered_and_stable :
    ∀ tasks : List Task,
      (get_sorted_tasks tasks).Pairwise (fun a b => b.score ≤ a.score)
      ∧ (get_sorted_tasks tasks false).Pairwise (fun a b => a.score ≤ b.score)
      ∧ (get_sorted_tasks tasks).Perm tasks
      ∧ (get_sorted_tasks tasks false).Perm tasks
      ∧ ∀ c : ℚ,
          (get_sorted_tasks tasks).filter (fun t => decide (t.score = c))
            = tasks.filter (fun t => decide (t.score = c))
          ∧ (get_sorted_tasks tasks false).filter (fun t => decide (t.score = c))
            = tasks.filter (fun t => decide (t.score = c)) := by
  intro tasks
  have htransD : ∀ a b c : Task, decide (b.score ≤ a.score) = true →
      decide (c.score ≤ b.score) = true → decide (c.score ≤ a.score) = true := by
    intro a b c h1 h2
    simp only [decide_eq_true_eq] at *
    exact le_trans h2 h1
  have htotalD : ∀ a b : Task,
      (decide (b.score ≤ a.score) || decide (a.score ≤ b.score)) = true := by
    intro a b
    simpa [Bool.or_eq_true, decide_eq_true_eq] using le_total b.score a.score
  have htransA : ∀ a b c : Task, decide (a.score ≤ b.score) = true →
      decide (b.score ≤ c.score) = true → decide (a.score ≤ c.score) = true := by
    intro a b c h1 h2
    simp only [decide_eq_true_eq] at *
    exact le_trans h1 h2
  have htotalA : ∀ a b : Task,
      (decide (a.score ≤ b.score) || decide (b.score ≤ a.score)) = true := by
    intro a b
    simpa [Bool.or_eq_true, decide_eq_true_eq] using le_total a.score b.score
  refine ⟨?_, ?_, ?_, ?_, fun c => ⟨?_, ?_⟩⟩
  · exact (List.sorted_mergeSort htransD htotalD tasks).imp fun h =>
      of_decide_eq_true h
  · exact (List.sorted_mergeSort htransA htotalA tasks).imp fun h =>
      of_decide_eq_true h
  · exact List.mergeSort_perm tasks _
  · exact List.mergeSort_perm tasks _
  · exact mergeSort_filter_fixed htransD htotalD _
      (fun a b ha hb => by
        simp only [decide_eq_true_eq] at *
        rw [ha, hb]) tasks
  · exact mergeSort_filter_fixed htransA htotalA _
      (fun a b ha hb => by
        simp only [decide_eq_true_eq] at *
        rw [ha, hb]) tasks

/-- C9: `calculate_effort_efficiency` is exactly `10 − e` for every
integer effort, with no clamping: efforts above 10 produce negative
efficiencies and efforts below 1 produce efficiencies above 9. -/
theorem effort_efficiency_is_ten_minus_effort :
    (∀ e : ℤ, calculate_effort_efficiency e = 10 - (e : ℚ)
      ∧ calculate_effort_efficiency e + e = 10)
    ∧ (∀ e : ℤ, 10 < e → calculate_effort_efficiency e < 0)
    ∧ (∀ e : ℤ, e < 1 → 9 < calculate_effort_efficiency e) := by
  refine ⟨fun e => ⟨rfl, by rw [calculate_effort_efficiency]; ring⟩,
    fun e he => ?_, fun e he => ?_⟩
  · have hq : (10 : ℚ) < e := by exact_mod_cast he
    rw [calculate_effort_efficiency]
    linarith
  · have hq : (e : ℚ) < 1 := by exact_mod_cast he
    rw [calculate_effort_efficiency]
    linarith

/-- Witness for C9: effort 11 gives a negative efficiency, effort 0
gives one above 9. -/
theorem effort_efficiency_is_ten_minus_effort_witness :
    calculate_effort_efficiency 11 < 0 ∧ 9 < calculate_effort_efficiency 0 :=
  ⟨effort_efficiency_is_ten_minus_effort.2.1 11 (by norm_num),
    effort_efficiency_is_ten_minus_effort.2.2 0 (by norm_num)⟩

/-- C10: `score_all_tasks` changes only the `score` field — every other
field, the length and the insertion order of the stored collection are
preserved — and `get_sorted_tasks` returns a new sequence that is a
permutation of the stored collection, which itself is left untouched
(the embedding is pure, so the input list is immutable by
construction). -/
theorem score_all_tasks_only_updates_score :
    ∀ (now : ℚ) (tasks : List Task),
      (score_all_tasks now tasks).map stripScore = tasks.map stripScore
      ∧ (score_all_tasks now tasks).length = tasks.length
      ∧ ∀ reverse : Bool, (get_sorted_tasks tasks reverse).Perm tasks := by
  intro now tasks
  refine ⟨?_, by simp [score_all_tasks], fun reverse => ?_⟩
  · rw [score_all_tasks, List.map_map]
    rfl
  · cases reverse <;> exact List.mergeSort_perm tasks _

end PriorityScorer
